import Mathlib

/-!
Shallow embedding of `sardana_icepap/ctrl/IcePAPTriggerController.py`.

The controller is modelled as pure functions over an explicit channel-state
record.  Hardware side effects (output-register writes, PMUX reconfiguration,
ECAM-table uploads, the pulse dwell) are recorded in an action trace; the
device's fallible behaviour (state reads, table uploads) is a parameter
(`Nat → Option _` / `Nat → Bool`, one entry per retry attempt).  Python floats
are modelled as exact rationals.
-/

namespace IcePAPTrigger

/-- `MAX_ECAM_VALUES = 20477` (hardware table ceiling). -/
def MAX_ECAM_VALUES : Nat := 20477

/-- Output levels written by `_set_out`: `LOW = 'low'`, `HIGH = 'high'`,
`ECAM = 'ecam'`. -/
inductive OutLevel
  | low
  | high
  | ecam
deriving DecidableEq, Repr

/-- Where an output write lands: the shared master `syncaux` register, or a
named auxiliary `InfoX` register. -/
inductive OutTarget
  | master
  | info (name : String)
deriving DecidableEq, Repr

/-- One hardware side effect performed by the controller. -/
inductive Action
  | writeOut (axis : Option Int) (target : OutTarget) (level : OutLevel)
  | sleep (seconds : ℚ)
  | clear_pmux
  | add_pmux (axis : Option Int)
  | upload_table (axis : Option Int) (table : List ℚ)
deriving DecidableEq, Repr

/-- Calibration data the motion-device registry returns for a motor name:
`axis` property plus the `step_per_unit`, `offset`, `sign` attributes. -/
structure MotorInfo where
  axis : Int
  spu : ℚ
  offset : ℚ
  sign : ℚ
deriving DecidableEq, Repr

/-- The controller's mutable instance state (`__init__`, lines 110-132).
`last_motor_name = none` models the initial `self._last_motor_name = None`;
`motor_axis = none` models the initial `self._motor_axis = None`. -/
structure ChannelState where
  time_mode : Bool
  start_trigger_only : Bool
  use_master_out : Bool
  axis_info_list : List String
  retries_nr : Nat
  default_motor : String
  last_motor_name : Option String
  motor_axis : Option Int
  motor_spu : ℚ
  motor_offset : ℚ
  motor_sign : ℚ
deriving DecidableEq, Repr

/-- Retry count computed in `__init__` (lines 115-120):
`3 // (Timeout + 0.1)`, replaced by `1` when it is `0`.  Exact rational
model of the float arithmetic. -/
def retriesNr (timeout : ℚ) : ℤ :=
  let r : ℤ := ⌊(3 : ℚ) / (timeout + 1/10)⌋
  if r = 0 then 1 else r

/-- `_set_out` (lines 134-142): writes `(out, 'normal')` either to the bound
axis's master `syncaux` register or to every configured `InfoX` register. -/
def set_out (s : ChannelState) (out : OutLevel) : List Action :=
  if s.use_master_out then
    [Action.writeOut s.motor_axis OutTarget.master out]
  else
    s.axis_info_list.map (fun info => Action.writeOut s.motor_axis (OutTarget.info info) out)

/-- `_configureMotor` (lines 144-172).  `reg` is the motion-device registry
(axis number and calibration constants per motor name); `pmuxHasE0` says
whether `get_pmux` reports an existing assignment on line `E0`.  Faithful to
the source, `self._last_motor_name = motor_name` is executed *before* the
`motor_name == self._last_motor_name` early-return guard. -/
def configureMotor (reg : String → MotorInfo) (pmuxHasE0 : Bool)
    (s : ChannelState) (motor_name : Option String) : ChannelState × List Action :=
  let name := motor_name.getD s.default_motor
  let info := reg name
  let s1 : ChannelState :=
    { s with last_motor_name := some name,
             motor_axis := some info.axis,
             motor_spu := info.spu,
             motor_offset := info.offset,
             motor_sign := info.sign }
  if some name = s1.last_motor_name then
    (s1, [])
  else if s1.use_master_out then
    ((s1, (if pmuxHasE0 then [Action.clear_pmux] else []) ++ [Action.add_pmux s1.motor_axis]))
  else
    (s1, [])

/-- Device state readback (`hw_state`): power, moving and settling flags. -/
structure HwState where
  poweron : Bool
  moving : Bool
  settling : Bool
deriving DecidableEq, Repr

/-- Sardana operational states used by `StateOne`: `State.Alarm`,
`State.Moving`, `State.On` (= READY). -/
inductive OpState
  | Alarm
  | Moving
  | On
deriving DecidableEq, Repr

/-- `StateOne` (lines 174-195): up to `retries_nr` attempts to read the motor
state, keeping the first successful one; `none`/power-off maps to Alarm,
moving-or-settling to Moving, anything else to On.  `reads i` is the outcome
of attempt `i` (`none` = the read raised). -/
def StateOne (s : ChannelState) (reads : Nat → Option HwState) : ChannelState × OpState :=
  match (List.range s.retries_nr).findSome? reads with
  | none => (s, OpState.Alarm)
  | some hw =>
      if hw.poweron = false then (s, OpState.Alarm)
      else if hw.moving || hw.settling then (s, OpState.Moving)
      else (s, OpState.On)

/-- `PreStartOne` (lines 197-204): drive LOW in time mode, ECAM in position
mode; always returns `True`. -/
def PreStartOne (s : ChannelState) : ChannelState × List Action × Bool :=
  if s.time_mode then (s, set_out s OutLevel.low, true)
  else (s, set_out s OutLevel.ecam, true)

/-- `StartOne` (lines 206-212): returns immediately unless in time mode;
in time mode drives HIGH, sleeps 10 ms, drives LOW. -/
def StartOne (s : ChannelState) : ChannelState × List Action :=
  if s.time_mode = false then (s, [])
  else (s, set_out s OutLevel.high ++ [Action.sleep (1/100)] ++ set_out s OutLevel.low)

/-- `AbortOne` (lines 214-217): unconditionally drives LOW. -/
def AbortOne (s : ChannelState) : ChannelState × List Action :=
  (s, set_out s OutLevel.low)

/-- The first synchronization group (`configuration[0]`): `Repeats`, an
optional `Initial` position and the `Total` span (both in the position
domain, user units). -/
structure SynchGroup where
  repeats : Nat
  initial : Option ℚ
  total : ℚ
deriving DecidableEq, Repr

/-- The exceptions `SynchOne` can raise. -/
inductive SynchErr
  /-- `ValueError`: multiple triggers synchronized by time (line 249). -/
  | multiTriggerByTime
  /-- `RuntimeError`: scan motor differs from the trigger-cable motor
  (lines 255, 268). -/
  | wrongMotorCable
  /-- `RuntimeError`: more than `MAX_ECAM_VALUES` points (line 299). -/
  | tooManyPoints
  /-- `RuntimeError`: `set_ecam_table` failed on every retry (line 316). -/
  | tableUploadFailed
deriving DecidableEq, Repr

/-- Outcome of `SynchOne`: on success the new state, the hardware-action
trace and the uploaded trigger table (`none` in time mode, where no table is
built); on error the exception together with the state at the moment of the
raise (mutations made before the raise persist). -/
abbrev SynchResult :=
  Except (SynchErr × ChannelState) (ChannelState × List Action × Option (List ℚ))

instance {ε α : Type} [DecidableEq ε] [DecidableEq α] : DecidableEq (Except ε α) :=
  fun x y =>
    match x, y with
    | Except.ok a, Except.ok b =>
        if h : a = b then isTrue (by rw [h]) else isFalse (by intro hc; cases hc; exact h rfl)
    | Except.error a, Except.error b =>
        if h : a = b then isTrue (by rw [h]) else isFalse (by intro hc; cases hc; exact h rfl)
    | Except.ok _, Except.error _ => isFalse (by intro hc; cases hc)
    | Except.error _, Except.ok _ => isFalse (by intro hc; cases hc)

/-- `numpy.linspace(a, b, num)` over exact rationals: `num` evenly spaced
samples from `a` to `b` inclusive (step `(b-a)/(num-1)`); `[a]` for
`num = 1`, `[]` for `num = 0`. -/
def linspace (a b : ℚ) (num : Nat) : List ℚ :=
  if num = 0 then []
  else if num = 1 then [a]
  else (List.range num).map (fun (i : Nat) => a + (i : ℚ) * ((b - a) / ((num : ℚ) - 1)))

/-- The `set_ecam_table` retry loop of `SynchOne` (lines 306-316): up to
`retries_nr` attempts, `uploadOk i` telling whether attempt `i` succeeds;
raises `RuntimeError` when none does. -/
def uploadEcamTable (uploadOk : Nat → Bool) (s : ChannelState) (acts : List Action)
    (table : List ℚ) : SynchResult :=
  if (List.range s.retries_nr).any uploadOk then
    Except.ok (s, acts ++ [Action.upload_table s.motor_axis table], some table)
  else
    Except.error (SynchErr.tableUploadFailed, s)

/-- `SynchOne` (lines 239-316).  Only `configuration[0]` is honoured.  A group
without `Initial` is a time-domain request: reject `repeats > 1`, set
`time_mode`, check the trigger-cable motor in auxiliary-output mode, rebind
the last motor and return without a table.  Otherwise build the position
trigger table (single `[start]` point under `start_trigger_only`, else a
`linspace` of `repeats` points after the capacity check) and upload it. -/
def SynchOne (reg : String → MotorInfo) (pmuxHasE0 : Bool) (uploadOk : Nat → Bool)
    (s : ChannelState) (g : SynchGroup) : SynchResult :=
  match g.initial with
  | none =>
      if g.repeats > 1 then
        Except.error (SynchErr.multiTriggerByTime, s)
      else
        let s1 := { s with time_mode := true }
        if s1.use_master_out = false ∧ s1.last_motor_name ≠ some s1.default_motor then
          Except.error (SynchErr.wrongMotorCable, s1)
        else
          let res := configureMotor reg pmuxHasE0 s1 s1.last_motor_name
          Except.ok (res.1, res.2, none)
  | some start_user0 =>
      let s1 := { s with time_mode := false }
      let master := s1.last_motor_name
      if s1.use_master_out = false ∧ master ≠ some s1.default_motor then
        Except.error (SynchErr.wrongMotorCable, s1)
      else
        let res := configureMotor reg pmuxHasE0 s1 master
        let s2 := res.1
        let start_user := start_user0 - s2.motor_offset
        let start := start_user * s2.motor_spu / s2.motor_sign
        let delta := g.total * s2.motor_spu / s2.motor_sign
        let endPos := start + delta * (g.repeats : ℚ)
        if s2.start_trigger_only then
          uploadEcamTable uploadOk s2 res.2 [start]
        else if g.repeats > MAX_ECAM_VALUES then
          Except.error (SynchErr.tooManyPoints, s2)
        else
          uploadEcamTable uploadOk s2 res.2 (linspace start (endPos - delta) g.repeats)

/-- The channel state right after `_configureMotor` ran on `mn`: the name is
bound (default substituted for `None`) and axis/calibration are refreshed
from the registry. -/
def configuredState (reg : String → MotorInfo) (s : ChannelState) (mn : Option String) :
    ChannelState :=
  { s with last_motor_name := some (mn.getD s.default_motor),
           motor_axis := some (reg (mn.getD s.default_motor)).axis,
           motor_spu := (reg (mn.getD s.default_motor)).spu,
           motor_offset := (reg (mn.getD s.default_motor)).offset,
           motor_sign := (reg (mn.getD s.default_motor)).sign }

/-- The motor name `SynchOne`/`_configureMotor` actually resolves:
`_last_motor_name`, with the default substituted when unset. -/
def resolvedName (s : ChannelState) : String :=
  s.last_motor_name.getD s.default_motor

/-- §4.3 `start = (initialPosition − offset) * stepsPerUnit / sign`, with the
calibration constants the registry holds for the resolved motor. -/
def startHw (reg : String → MotorInfo) (s : ChannelState) (p : ℚ) : ℚ :=
  (p - (reg (resolvedName s)).offset) * (reg (resolvedName s)).spu / (reg (resolvedName s)).sign

/-- §4.3 `delta = totalSpan * stepsPerUnit / sign`. -/
def deltaHw (reg : String → MotorInfo) (s : ChannelState) (total : ℚ) : ℚ :=
  total * (reg (resolvedName s)).spu / (reg (resolvedName s)).sign

/-- A concrete sample channel (motor `m1` bound, master-output mode, 5 upload
retries, calibration `spu = 1000`, `offset = 0`, `sign = 1`), used by the
witnesses and counterexamples below. -/
def chanBase : ChannelState :=
  { time_mode := false, start_trigger_only := false, use_master_out := true,
    axis_info_list := ["InfoA"], retries_nr := 5, default_motor := "m1",
    last_motor_name := some "m1", motor_axis := some 1,
    motor_spu := 1000, motor_offset := 0, motor_sign := 1 }

/-- A registry where every motor resolves to axis 1 with `spu = 1000`,
`offset = 0`, `sign = 1` (the calibration of the spec's end-to-end example). -/
def regBase : String → MotorInfo := fun _ => ⟨1, 1000, 0, 1⟩

theorem configureMotor_eq (reg : String → MotorInfo) (pm : Bool) (s : ChannelState)
    (mn : Option String) :
    configureMotor reg pm s mn = (configuredState reg s mn, []) := by
  simp [configureMotor, configuredState]

theorem linspace_length (a b : ℚ) (n : Nat) : (linspace a b n).length = n := by
  unfold linspace
  split
  · simp [*]
  · split
    · simp [*]
    · rw [List.length_map, List.length_range]

theorem linspace_getElem? (a d : ℚ) (n i : Nat) (hi : i < n) :
    (linspace a (a + d * (n : ℚ) - d) n)[i]? = some (a + (i : ℚ) * d) := by
  match n, hi with
  | 1, hi =>
      have : i = 0 := by omega
      subst this
      simp [linspace]
  | (m + 2), hi =>
      have hm : ((m : ℚ) + 2) - 1 ≠ 0 := by
        have h0 : (0 : ℚ) ≤ (m : ℚ) := Nat.cast_nonneg m
        intro hc
        linarith
      unfold linspace
      rw [if_neg (by omega), if_neg (by omega), List.getElem?_map,
        List.getElem?_range hi]
      simp only [Option.map_some']
      congr 1
      push_cast
      field_simp
      ring

theorem SynchOne_position_eq (reg : String → MotorInfo) (pm : Bool) (uploadOk : Nat → Bool)
    (s : ChannelState) (g : SynchGroup) (p : ℚ)
    (hinit : g.initial = some p)
    (hwire : ¬(s.use_master_out = false ∧ s.last_motor_name ≠ some s.default_motor))
    (hsto : s.start_trigger_only = false)
    (hmax : ¬ g.repeats > MAX_ECAM_VALUES) :
    SynchOne reg pm uploadOk s g =
      uploadEcamTable uploadOk (configuredState reg { s with time_mode := false } s.last_motor_name)
        []
        (linspace (startHw reg s p)
          (startHw reg s p + deltaHw reg s g.total * (g.repeats : ℚ) - deltaHw reg s g.total)
          g.repeats) := by
  obtain ⟨n, gi, tot⟩ := g
  simp only at hinit hmax ⊢
  subst hinit
  simp only [SynchOne]
  rw [if_neg (by simpa using hwire)]
  simp only [configureMotor_eq]
  rw [if_neg (by simp [configuredState, hsto])]
  rw [if_neg hmax]
  simp [configuredState, startHw, deltaHw, resolvedName]

theorem SynchOne_start_trigger_only_eq (reg : String → MotorInfo) (pm : Bool)
    (uploadOk : Nat → Bool) (s : ChannelState) (g : SynchGroup) (p : ℚ)
    (hinit : g.initial = some p)
    (hwire : ¬(s.use_master_out = false ∧ s.last_motor_name ≠ some s.default_motor))
    (hsto : s.start_trigger_only = true) :
    SynchOne reg pm uploadOk s g =
      uploadEcamTable uploadOk (configuredState reg { s with time_mode := false } s.last_motor_name)
        [] [startHw reg s p] := by
  obtain ⟨n, gi, tot⟩ := g
  simp only at hinit ⊢
  subst hinit
  simp only [SynchOne]
  rw [if_neg (by simpa using hwire)]
  simp only [configureMotor_eq]
  rw [if_pos (by simp [configuredState, hsto])]
  simp [configuredState, startHw, resolvedName]

theorem SynchOne_capacity_error (reg : String → MotorInfo) (pm : Bool) (uploadOk : Nat → Bool)
    (s : ChannelState) (g : SynchGroup) (p : ℚ)
    (hinit : g.initial = some p)
    (hwire : ¬(s.use_master_out = false ∧ s.last_motor_name ≠ some s.default_motor))
    (hsto : s.start_trigger_only = false)
    (hmax : g.repeats > MAX_ECAM_VALUES) :
    SynchOne reg pm uploadOk s g =
      Except.error (SynchErr.tooManyPoints,
        configuredState reg { s with time_mode := false } s.last_motor_name) := by
  obtain ⟨n, gi, tot⟩ := g
  simp only at hinit hmax ⊢
  subst hinit
  simp only [SynchOne]
  rw [if_neg (by simpa using hwire)]
  simp only [configureMotor_eq]
  rw [if_neg (by simp [configuredState, hsto])]
  rw [if_pos hmax]

theorem SynchOne_time_reject (reg : String → MotorInfo) (pm : Bool) (uploadOk : Nat → Bool)
    (s : ChannelState) (g : SynchGroup)
    (hinit : g.initial = none) (hrep : g.repeats > 1) :
    SynchOne reg pm uploadOk s g = Except.error (SynchErr.multiTriggerByTime, s) := by
  obtain ⟨n, gi, tot⟩ := g
  simp only at hinit hrep ⊢
  subst hinit
  simp only [SynchOne]
  rw [if_pos hrep]

theorem SynchOne_time_ok (reg : String → MotorInfo) (pm : Bool) (uploadOk : Nat → Bool)
    (s : ChannelState) (g : SynchGroup)
    (hinit : g.initial = none) (hrep : ¬ g.repeats > 1)
    (hwire : ¬(s.use_master_out = false ∧ s.last_motor_name ≠ some s.default_motor)) :
    SynchOne reg pm uploadOk s g =
      Except.ok (configuredState reg { s with time_mode := true } s.last_motor_name, [], none) := by
  obtain ⟨n, gi, tot⟩ := g
  simp only at hinit hrep ⊢
  subst hinit
  simp only [SynchOne]
  rw [if_neg hrep]
  rw [if_neg (by simpa using hwire)]
  simp only [configureMotor_eq]

theorem SynchOne_time_wire_error (reg : String → MotorInfo) (pm : Bool) (uploadOk : Nat → Bool)
    (s : ChannelState) (g : SynchGroup)
    (hinit : g.initial = none) (hrep : ¬ g.repeats > 1)
    (hwire : s.use_master_out = false ∧ s.last_motor_name ≠ some s.default_motor) :
    SynchOne reg pm uploadOk s g =
      Except.error (SynchErr.wrongMotorCable, { s with time_mode := true }) := by
  obtain ⟨n, gi, tot⟩ := g
  simp only at hinit hrep ⊢
  subst hinit
  simp only [SynchOne]
  rw [if_neg hrep]
  rw [if_pos (by simpa using hwire)]

theorem SynchOne_position_wire_error (reg : String → MotorInfo) (pm : Bool)
    (uploadOk : Nat → Bool) (s : ChannelState) (g : SynchGroup) (p : ℚ)
    (hinit : g.initial = some p)
    (hwire : s.use_master_out = false ∧ s.last_motor_name ≠ some s.default_motor) :
    SynchOne reg pm uploadOk s g =
      Except.error (SynchErr.wrongMotorCable, { s with time_mode := false }) := by
  obtain ⟨n, gi, tot⟩ := g
  simp only at hinit ⊢
  subst hinit
  simp only [SynchOne]
  rw [if_pos (by simpa using hwire)]

theorem linspace_pairwise_lt (a d : ℚ) (n : Nat) (hd : 0 < d) :
    List.Pairwise (fun x y : ℚ => x < y) (linspace a (a + d * (n : ℚ) - d) n) := by
  rw [List.pairwise_iff_getElem]
  intro i j hi hj hij
  rw [linspace_length] at hi hj
  have h1 := linspace_getElem? a d n i hi
  have h2 := linspace_getElem? a d n j hj
  rw [List.getElem?_eq_getElem (by rw [linspace_length]; exact hi)] at h1
  rw [List.getElem?_eq_getElem (by rw [linspace_length]; exact hj)] at h2
  rw [Option.some_inj] at h1 h2
  rw [h1, h2]
  have hcast : (i : ℚ) < (j : ℚ) := by exact_mod_cast hij
  have := mul_lt_mul_of_pos_right hcast hd
  linarith

/-- C1: the claim says that in master-output mode the first `_configureMotor`
call for a motor performs exactly one PMUX reassignment and the second none.
In the code the reassignment branch is unreachable: `self._last_motor_name`
is assigned `motor_name` *before* the `motor_name == self._last_motor_name`
guard, so the guard always returns early and `_configureMotor` performs zero
PMUX operations on every call — this theorem proves the action trace empty
for all inputs, exhibiting the code bug. -/
theorem C1_configureMotor_never_reassigns_pmux (reg : String → MotorInfo) (pm : Bool)
    (s : ChannelState) (mn : Option String) :
    (configureMotor reg pm s mn).2 = [] := by
  rw [configureMotor_eq]

/-- C3: the retry count computed at construction equals
`max(1, floor(3 / (timeout + 0.1)))` for every positive timeout; in
particular it is 5 at `timeout = 0.5` and 1 at `timeout = 3.0`. -/
theorem C3_retries_formula :
    (∀ t : ℚ, 0 < t → retriesNr t = max 1 ⌊(3 : ℚ) / (t + 1/10)⌋) ∧
    retriesNr (1/2) = 5 ∧ retriesNr 3 = 1 := by
  have hfive : ⌊(3 : ℚ) / ((1/2 : ℚ) + 1/10)⌋ = 5 := by
    rw [show (3 : ℚ) / ((1/2 : ℚ) + 1/10) = 5 by norm_num]
    norm_num
  have hzero : ⌊(3 : ℚ) / ((3 : ℚ) + 1/10)⌋ = 0 := by
    rw [Int.floor_eq_zero_iff]
    constructor <;> norm_num
  refine ⟨?_, ?_, ?_⟩
  · intro t ht
    have hden : (0 : ℚ) < t + 1/10 := by linarith
    have h2 : (0 : ℚ) ≤ 3 / (t + 1/10) := div_nonneg (by norm_num) hden.le
    have h3 : 0 ≤ ⌊(3 : ℚ) / (t + 1/10)⌋ := Int.floor_nonneg.mpr h2
    have hr : retriesNr t =
        if ⌊(3 : ℚ) / (t + 1/10)⌋ = 0 then 1 else ⌊(3 : ℚ) / (t + 1/10)⌋ := rfl
    by_cases hz : ⌊(3 : ℚ) / (t + 1/10)⌋ = 0
    · rw [hr, if_pos hz, hz, max_eq_left (by norm_num)]
    · have h4 : 1 ≤ ⌊(3 : ℚ) / (t + 1/10)⌋ := by omega
      rw [hr, if_neg hz, max_eq_right h4]
  · have hr : retriesNr (1/2) =
        if ⌊(3 : ℚ) / ((1/2 : ℚ) + 1/10)⌋ = 0 then 1 else ⌊(3 : ℚ) / ((1/2 : ℚ) + 1/10)⌋ := rfl
    rw [hr, hfive]
    norm_num
  · have hr : retriesNr 3 =
        if ⌊(3 : ℚ) / ((3 : ℚ) + 1/10)⌋ = 0 then 1 else ⌊(3 : ℚ) / ((3 : ℚ) + 1/10)⌋ := rfl
    rw [hr, hzero]
    norm_num

/-- C3 witness: the formula instantiated at `timeout = 0.5`. -/
theorem C3_retries_formula_witness :
    retriesNr (1/2) = max 1 ⌊(3 : ℚ) / ((1/2) + 1/10)⌋ :=
  C3_retries_formula.1 (1/2) (by norm_num)

/-- C7: `StateOne` is total (never raises) and always yields one of the three
operational states: Alarm when every one of the `retries_nr` reads fails or
the first successful read reports power off, Moving when it reports moving or
settling, On (READY) otherwise. -/
theorem C7_StateOne_total (s : ChannelState) (reads : Nat → Option HwState) :
    ((StateOne s reads).2 = OpState.Alarm ∨ (StateOne s reads).2 = OpState.Moving ∨
      (StateOne s reads).2 = OpState.On) ∧
    ((∀ i, i < s.retries_nr → reads i = none) → (StateOne s reads).2 = OpState.Alarm) ∧
    (∀ hw, (List.range s.retries_nr).findSome? reads = some hw →
      (hw.poweron = false → (StateOne s reads).2 = OpState.Alarm) ∧
      (hw.poweron = true → (hw.moving = true ∨ hw.settling = true) →
        (StateOne s reads).2 = OpState.Moving) ∧
      (hw.poweron = true → hw.moving = false → hw.settling = false →
        (StateOne s reads).2 = OpState.On)) := by
  refine ⟨?_, ?_, ?_⟩
  · unfold StateOne
    cases hfind : (List.range s.retries_nr).findSome? reads with
    | none => simp
    | some hw =>
        dsimp only
        split_ifs <;> simp
  · intro hall
    have hnone : (List.range s.retries_nr).findSome? reads = none :=
      List.findSome?_eq_none_iff.mpr (fun x hx => hall x (List.mem_range.mp hx))
    unfold StateOne
    rw [hnone]
  · intro hw hfind
    unfold StateOne
    rw [hfind]
    dsimp only
    refine ⟨fun hp => ?_, fun hp hms => ?_, fun hp hm hs => ?_⟩
    · simp [hp]
    · rw [if_neg (by simp [hp])]
      rw [if_pos (by rcases hms with h | h <;> simp [h])]
    · rw [if_neg (by simp [hp])]
      rw [if_neg (by simp [hm, hs])]

/-- C7 witness: a device whose reads always fail yields Alarm. -/
theorem C7_StateOne_total_witness :
    (StateOne chanBase (fun _ => none)).2 = OpState.Alarm :=
  (C7_StateOne_total chanBase (fun _ => none)).2.1 (fun _ _ => rfl)

/-- C8: `StartOne` is a no-op in position mode (no actions, state unchanged);
in time mode it drives HIGH, dwells 10 ms (0.01 s) and drives LOW, leaving
the state unchanged. -/
theorem C8_StartOne (s : ChannelState) :
    (s.time_mode = false → StartOne s = (s, [])) ∧
    (s.time_mode = true →
      StartOne s =
        (s, set_out s OutLevel.high ++ [Action.sleep (1/100)] ++ set_out s OutLevel.low)) := by
  constructor <;> intro h <;> simp [StartOne, h]

/-- C8 witness: in position mode (`chanBase`) `StartOne` does nothing. -/
theorem C8_StartOne_witness : StartOne chanBase = (chanBase, []) :=
  (C8_StartOne chanBase).1 rfl

/-- C9: `StateOne`, `PreStartOne`, `StartOne` and `AbortOne` leave the whole
channel configuration state (in particular `time_mode`,
`start_trigger_only`, the bound motor name, the resolved axis and the three
calibration constants) unchanged; their hardware effects live only in the
returned action traces. -/
theorem C9_frame (s : ChannelState) (reads : Nat → Option HwState) :
    (StateOne s reads).1 = s ∧ (PreStartOne s).1 = s ∧
    (StartOne s).1 = s ∧ (AbortOne s).1 = s := by
  refine ⟨?_, ?_, ?_, rfl⟩
  · unfold StateOne
    cases (List.range s.retries_nr).findSome? reads with
    | none => rfl
    | some hw =>
        dsimp only
        split_ifs <;> rfl
  · unfold PreStartOne
    split_ifs <;> rfl
  · unfold StartOne
    split_ifs <;> rfl

/-- C2 counterexample: the claim says `repeatCount > 20477` in position mode
always fails with the capacity error, regardless of `startTriggerOnly`.  It
is false: with `startTriggerOnly` set and `repeatCount = 20478 > 20477`, the
code takes the single-point branch first and succeeds with table `[start]`.
-/
theorem C2_counterexample :
    SynchOne regBase true (fun _ => true)
        { chanBase with start_trigger_only := true } ⟨20478, some 0, 10⟩ =
      Except.ok ({ chanBase with start_trigger_only := true },
        [Action.upload_table (some 1) [0]], some [0]) ∧
    20478 > MAX_ECAM_VALUES := by
  constructor
  · rw [SynchOne_start_trigger_only_eq regBase true (fun _ => true)
      { chanBase with start_trigger_only := true } ⟨20478, some 0, 10⟩ 0 rfl
      (by decide) rfl]
    unfold uploadEcamTable
    rw [if_pos (by decide)]
    simp [configuredState, chanBase, regBase, startHw, resolvedName]
  · norm_num [MAX_ECAM_VALUES]

/-- C2 (amended): for a position-domain request with
`repeatCount > 20477`, `SynchOne` fails with the capacity error when
`startTriggerOnly` is unset; when `startTriggerOnly` is set the single-point
override takes priority over the ceiling check and the call succeeds with
the one-entry table `[start]`. -/
theorem C2_capacity_error_unless_start_trigger_only
    (reg : String → MotorInfo) (pm : Bool) (uploadOk : Nat → Bool)
    (s : ChannelState) (g : SynchGroup) (p : ℚ)
    (hinit : g.initial = some p)
    (hwire : ¬(s.use_master_out = false ∧ s.last_motor_name ≠ some s.default_motor))
    (hmax : g.repeats > MAX_ECAM_VALUES) :
    (s.start_trigger_only = false →
      SynchOne reg pm uploadOk s g =
        Except.error (SynchErr.tooManyPoints,
          configuredState reg { s with time_mode := false } s.last_motor_name)) ∧
    (s.start_trigger_only = true → (List.range s.retries_nr).any uploadOk = true →
      SynchOne reg pm uploadOk s g =
        Except.ok (configuredState reg { s with time_mode := false } s.last_motor_name,
          [Action.upload_table
            (configuredState reg { s with time_mode := false } s.last_motor_name).motor_axis
            [startHw reg s p]],
          some [startHw reg s p])) := by
  constructor
  · intro hsto
    exact SynchOne_capacity_error reg pm uploadOk s g p hinit hwire hsto hmax
  · intro hsto hup
    rw [SynchOne_start_trigger_only_eq reg pm uploadOk s g p hinit hwire hsto]
    unfold uploadEcamTable
    rw [if_pos (by simpa [configuredState] using hup)]
    rfl

/-- C2 witness: with `startTriggerOnly` unset, 20478 points yield the
capacity error. -/
theorem C2_capacity_error_witness :
    SynchOne regBase true (fun _ => true) chanBase ⟨20478, some 0, 10⟩ =
      Except.error (SynchErr.tooManyPoints,
        configuredState regBase { chanBase with time_mode := false }
          chanBase.last_motor_name) :=
  (C2_capacity_error_unless_start_trigger_only regBase true (fun _ => true) chanBase
    ⟨20478, some 0, 10⟩ 0 rfl (by decide) (by norm_num [MAX_ECAM_VALUES])).1 rfl

/-- C4: for every valid position-domain request (`startTriggerOnly` unset,
`1 ≤ repeatCount ≤ 20477`, wiring check passing, nonzero sign, upload
succeeding) the produced table has exactly `repeatCount` entries, entry `i`
equals `start + i·delta`, and the last entry equals
`start + delta·(repeatCount − 1)`, with `start`/`delta` the §4.3 unit
conversions over the registry's calibration constants. -/
theorem C4_position_table_entries
    (reg : String → MotorInfo) (pm : Bool) (uploadOk : Nat → Bool)
    (s : ChannelState) (g : SynchGroup) (p : ℚ)
    (hinit : g.initial = some p)
    (hsto : s.start_trigger_only = false)
    (hwire : ¬(s.use_master_out = false ∧ s.last_motor_name ≠ some s.default_motor))
    (h1 : 1 ≤ g.repeats) (hmax : g.repeats ≤ MAX_ECAM_VALUES)
    (_hsign : (reg (resolvedName s)).sign ≠ 0)
    (hup : (List.range s.retries_nr).any uploadOk = true) :
    ∃ s2 acts tbl,
      SynchOne reg pm uploadOk s g = Except.ok (s2, acts, some tbl) ∧
      tbl.length = g.repeats ∧
      (∀ i : Nat, i < g.repeats →
        tbl[i]? = some (startHw reg s p + (i : ℚ) * deltaHw reg s g.total)) ∧
      tbl[g.repeats - 1]? =
        some (startHw reg s p + deltaHw reg s g.total * ((g.repeats : ℚ) - 1)) := by
  rw [SynchOne_position_eq reg pm uploadOk s g p hinit hwire hsto (by omega)]
  unfold uploadEcamTable
  rw [if_pos (by simpa [configuredState] using hup)]
  refine ⟨_, _, _, rfl, linspace_length _ _ _,
    fun i hi => linspace_getElem? _ _ _ _ hi, ?_⟩
  rw [linspace_getElem? _ _ _ _ (by omega)]
  congr 1
  have hc : ((g.repeats - 1 : Nat) : ℚ) = (g.repeats : ℚ) - 1 := by
    rw [Nat.cast_sub h1, Nat.cast_one]
  rw [hc]
  ring

/-- C4 witness: the end-to-end request `initialPosition = 0`,
`totalSpan = 10`, `repeatCount = 5` on `chanBase`. -/
theorem C4_position_table_entries_witness :
    ∃ s2 acts tbl,
      SynchOne regBase true (fun _ => true) chanBase ⟨5, some 0, 10⟩ =
        Except.ok (s2, acts, some tbl) ∧
      tbl.length = 5 ∧
      (∀ i : Nat, i < 5 →
        tbl[i]? = some (startHw regBase chanBase 0 + (i : ℚ) * deltaHw regBase chanBase 10)) ∧
      tbl[5 - 1]? =
        some (startHw regBase chanBase 0 + deltaHw regBase chanBase 10 * ((5 : ℚ) - 1)) :=
  C4_position_table_entries regBase true (fun _ => true) chanBase ⟨5, some 0, 10⟩ 0
    rfl rfl (by decide) (by norm_num) (by norm_num [MAX_ECAM_VALUES]) (by decide) rfl

/-- C5 counterexample: the claim says the table is strictly increasing
whenever `delta ≠ 0`.  It is false for negative `delta`: with
`totalSpan = −1` (so `delta = −1 ≠ 0`) the produced table is `[0, −1]`,
which is strictly decreasing. -/
theorem C5_counterexample :
    SynchOne (fun _ => ⟨1, 1, 0, 1⟩) true (fun _ => true)
        { chanBase with motor_spu := 1 } ⟨2, some 0, -1⟩ =
      Except.ok ({ chanBase with motor_spu := 1 },
        [Action.upload_table (some 1) [0, -1]], some [0, -1]) ∧
    deltaHw (fun _ => ⟨1, 1, 0, 1⟩) { chanBase with motor_spu := 1 } (-1) ≠ 0 ∧
    ¬ List.Pairwise (fun x y : ℚ => x < y) [0, -1] := by
  refine ⟨?_, by norm_num [deltaHw, resolvedName, chanBase], by decide⟩
  rw [SynchOne_position_eq (fun _ => ⟨1, 1, 0, 1⟩) true (fun _ => true)
    { chanBase with motor_spu := 1 } ⟨2, some 0, -1⟩ 0 rfl (by decide) rfl
    (by norm_num [MAX_ECAM_VALUES])]
  unfold uploadEcamTable
  rw [if_pos (by decide)]
  norm_num [configuredState, chanBase, startHw, deltaHw, resolvedName, linspace,
    List.range_succ]

/-- C5 (amended): for every valid position-domain request whose per-point
step `delta` is strictly positive, the produced trigger table is strictly
increasing. -/
theorem C5_table_strictly_increasing
    (reg : String → MotorInfo) (pm : Bool) (uploadOk : Nat → Bool)
    (s : ChannelState) (g : SynchGroup) (p : ℚ)
    (hinit : g.initial = some p)
    (hsto : s.start_trigger_only = false)
    (hwire : ¬(s.use_master_out = false ∧ s.last_motor_name ≠ some s.default_motor))
    (hmax : g.repeats ≤ MAX_ECAM_VALUES)
    (hdelta : 0 < deltaHw reg s g.total) :
    ∀ s2 acts tbl, SynchOne reg pm uploadOk s g = Except.ok (s2, acts, some tbl) →
      List.Pairwise (fun x y : ℚ => x < y) tbl := by
  intro s2 acts tbl h
  rw [SynchOne_position_eq reg pm uploadOk s g p hinit hwire hsto (by omega)] at h
  unfold uploadEcamTable at h
  split at h
  · simp only [Except.ok.injEq, Prod.mk.injEq, Option.some.injEq] at h
    obtain ⟨-, -, htbl⟩ := h
    rw [← htbl]
    exact linspace_pairwise_lt _ _ _ hdelta
  · simp at h

/-- C5 witness: the table of the end-to-end request (`delta = 10000 > 0`) is
strictly increasing. -/
theorem C5_table_strictly_increasing_witness :
    List.Pairwise (fun x y : ℚ => x < y) [0, 10000, 20000, 30000, 40000] :=
  C5_table_strictly_increasing regBase true (fun _ => true) chanBase ⟨5, some 0, 10⟩ 0
    rfl rfl (by decide) (by norm_num [MAX_ECAM_VALUES]) (by norm_num [deltaHw, regBase])
    chanBase [Action.upload_table (some 1) [0, 10000, 20000, 30000, 40000]]
    [0, 10000, 20000, 30000, 40000]
    (by
      rw [SynchOne_position_eq regBase true (fun _ => true) chanBase ⟨5, some 0, 10⟩ 0 rfl
        (by decide) rfl (by norm_num [MAX_ECAM_VALUES])]
      unfold uploadEcamTable
      rw [if_pos (by decide)]
      norm_num [configuredState, chanBase, regBase, startHw, deltaHw, resolvedName, linspace,
        List.range_succ])

/-- C6 counterexample: the claim says a time-domain request with
`repeatCount ≤ 1` sets `timeMode`, re-binds the motor and returns.  In
auxiliary-output mode with no motor ever bound the call instead raises the
cable-wiring error (and `timeMode` has already been mutated to true). -/
theorem C6_counterexample :
    SynchOne regBase true (fun _ => true)
        { chanBase with use_master_out := false, last_motor_name := none } ⟨1, none, 0⟩ =
      Except.error (SynchErr.wrongMotorCable,
        { chanBase with use_master_out := false, last_motor_name := none, time_mode := true }) := by
  rw [SynchOne_time_wire_error regBase true (fun _ => true)
    { chanBase with use_master_out := false, last_motor_name := none } ⟨1, none, 0⟩ rfl
    (by norm_num) (by decide)]

/-- C6 (amended): for a request without an initial position,
`repeatCount > 1` fails with the multi-trigger configuration error leaving
the state unchanged; `repeatCount ≤ 1` sets `timeMode`, re-binds the
previously bound motor (the default if none) and returns without building or
uploading any table — provided the cable-wiring check passes (master-output
mode, or the bound motor equals the default). -/
theorem C6_time_domain_behaviour
    (reg : String → MotorInfo) (pm : Bool) (uploadOk : Nat → Bool)
    (s : ChannelState) (g : SynchGroup)
    (hinit : g.initial = none) :
    (g.repeats > 1 →
      SynchOne reg pm uploadOk s g = Except.error (SynchErr.multiTriggerByTime, s)) ∧
    (g.repeats ≤ 1 →
      ¬(s.use_master_out = false ∧ s.last_motor_name ≠ some s.default_motor) →
      SynchOne reg pm uploadOk s g =
        Except.ok (configuredState reg { s with time_mode := true } s.last_motor_name,
          [], none)) := by
  constructor
  · intro h
    exact SynchOne_time_reject reg pm uploadOk s g hinit h
  · intro h hw
    exact SynchOne_time_ok reg pm uploadOk s g hinit (by omega) hw

/-- C6 witness: a single-point time-domain request on `chanBase` sets
`timeMode` and re-binds `m1` with no table. -/
theorem C6_time_domain_behaviour_witness :
    SynchOne regBase true (fun _ => true) chanBase ⟨1, none, 0⟩ =
      Except.ok (configuredState regBase { chanBase with time_mode := true }
        chanBase.last_motor_name, [], none) :=
  (C6_time_domain_behaviour regBase true (fun _ => true) chanBase ⟨1, none, 0⟩ rfl).2
    (by norm_num) (by decide)

/-- C10 counterexample: the claim says every `SynchOne` call in
auxiliary-output mode before any motor is bound fails with the cable-wiring
error.  A time-domain request with `repeatCount = 2` instead fails with the
multi-trigger error, which is raised first. -/
theorem C10_counterexample :
    SynchOne regBase true (fun _ => true)
        { chanBase with use_master_out := false, last_motor_name := none } ⟨2, none, 0⟩ =
      Except.error (SynchErr.multiTriggerByTime,
        { chanBase with use_master_out := false, last_motor_name := none }) ∧
    SynchErr.multiTriggerByTime ≠ SynchErr.wrongMotorCable :=
  ⟨SynchOne_time_reject regBase true (fun _ => true)
    { chanBase with use_master_out := false, last_motor_name := none } ⟨2, none, 0⟩
    rfl (by norm_num), by decide⟩

/-- C10 (amended): in auxiliary-output mode with no motor ever bound
(`last_motor_name` still `none`, which differs from the configured default),
every position-domain request and every time-domain request with
`repeatCount ≤ 1` fails with the cable-wiring error — even though
`_configureMotor` would have substituted the default motor for the unset
name.  (A time-domain request with `repeatCount > 1` fails earlier with the
multi-trigger error.) -/
theorem C10_unbound_aux_mode_fails
    (reg : String → MotorInfo) (pm : Bool) (uploadOk : Nat → Bool)
    (s : ChannelState) (g : SynchGroup)
    (haux : s.use_master_out = false)
    (hlast : s.last_motor_name = none) :
    (∀ p, g.initial = some p →
      SynchOne reg pm uploadOk s g =
        Except.error (SynchErr.wrongMotorCable, { s with time_mode := false })) ∧
    (g.initial = none → g.repeats ≤ 1 →
      SynchOne reg pm uploadOk s g =
        Except.error (SynchErr.wrongMotorCable, { s with time_mode := true })) := by
  constructor
  · intro p hp
    exact SynchOne_position_wire_error reg pm uploadOk s g p hp ⟨haux, by simp [hlast]⟩
  · intro hi hr
    exact SynchOne_time_wire_error reg pm uploadOk s g hi (by omega) ⟨haux, by simp [hlast]⟩

/-- C10 witness: an unbound auxiliary-mode channel rejects a position-domain
request with the cable-wiring error. -/
theorem C10_unbound_aux_mode_fails_witness :
    SynchOne regBase true (fun _ => true)
        { chanBase with use_master_out := false, last_motor_name := none } ⟨1, some 0, 10⟩ =
      Except.error (SynchErr.wrongMotorCable,
        { chanBase with use_master_out := false, last_motor_name := none, time_mode := false }) :=
  (C10_unbound_aux_mode_fails regBase true (fun _ => true)
    { chanBase with use_master_out := false, last_motor_name := none }
    ⟨1, some 0, 10⟩ rfl rfl).1 0 rfl

end IcePAPTrigger
